import Mathlib

/-!
# Board selection in `onjuino/custom_boards.h`

The header is one preprocessor conditional chain

    #ifdef BOARD_V1 ... #elif defined(BOARD_V2) ... #elif defined(BOARD_V3) ... #else #error ... #endif

whose groups only contain object-like `#define` lines (and one `#error`).
The embedding keeps that shape: the header is a value of `Header`, written
line for line from the file, and `preprocess` is the evaluation of a
conditional chain against the names defined on entry, giving the bindings
the header adds.

The header has no `#undef`: a name defined on entry (by a `-D` option or an
earlier `#define`) is still defined after the header, with its own
replacement text unless the kept group defines it again.  `definitionsAfter`
is that environment, and `resolve` reads it under the logical names, the way
the firmware that includes the header does.
-/

namespace Onjuino

/-- Replacement text of an object-like define, as it occurs in the header. -/
inductive Body where
  /-- A string literal, as in `#define BOARD_NAME "V1"`. -/
  | str (s : String)
  /-- A decimal integer, as in `#define I2S_BCK_PIN 40`. -/
  | int (n : Nat)
  /-- The identifier `I2S_NUM_<n>` of the I2S driver, as in `#define I2S_NUM I2S_NUM_0`. -/
  | i2sNum (n : Nat)
  /-- The identifier `T<n>` of a touch channel, as in `#define T_L T1`. -/
  | touch (n : Nat)
  /-- No replacement text, as in `#define USE_PSRAM`. -/
  | empty
  /-- Any other replacement text, which a name defined outside the header may have. -/
  | other (text : String)
  deriving DecidableEq, Repr

/-- One directive inside a group of the conditional chain. -/
inductive Line where
  /-- The directive `#define name body`. -/
  | define (name : String) (body : Body)
  /-- The directive `#error "msg"`. -/
  | error (msg : String)
  deriving DecidableEq, Repr

/-- A conditional chain: `#ifdef s1 g1 #elif defined(s2) g2 ... #else g #endif`. -/
structure Header where
  /-- The guarded groups, in file order, each with the name its guard tests. -/
  branches : List (String × List Line)
  /-- The group after `#else`. -/
  elseGroup : List Line
  deriving Repr

/-- Lines 5 to 21: the group guarded by `#ifdef BOARD_V1`. -/
def groupV1 : List Line :=
  [ .define "BOARD_NAME" (.str "V1"),
    .define "I2S_NUM" (.i2sNum 0),
    .define "I2S_BCK_PIN" (.int 40),
    .define "I2S_WS_PIN" (.int 42),
    .define "I2S_IN" (.int 41),
    .define "I2S_OUT" (.int 17),
    .define "MUTE" (.int 33),
    .define "LED_PIN" (.int 48),
    .define "LED_COUNT" (.int 6),
    .define "SPEAKER_EN" (.int 47),
    .define "T_L" (.touch 1),
    .define "T_C" (.touch 2),
    .define "T_R" (.touch 3) ]

/-- Lines 25 to 41: the group guarded by `#elif defined(BOARD_V2)`. -/
def groupV2 : List Line :=
  [ .define "BOARD_NAME" (.str "V2"),
    .define "I2S_NUM" (.i2sNum 0),
    .define "I2S_BCK_PIN" (.int 18),
    .define "I2S_WS_PIN" (.int 13),
    .define "I2S_IN" (.int 17),
    .define "I2S_OUT" (.int 12),
    .define "MUTE" (.int 38),
    .define "LED_PIN" (.int 11),
    .define "LED_COUNT" (.int 6),
    .define "T_L" (.touch 2),
    .define "T_C" (.touch 3),
    .define "T_R" (.touch 4),
    .define "USE_PSRAM" .empty ]

/-- Lines 45 to 62: the group guarded by `#elif defined(BOARD_V3)`. -/
def groupV3 : List Line :=
  [ .define "BOARD_NAME" (.str "V3"),
    .define "I2S_NUM" (.i2sNum 0),
    .define "I2S_BCK_PIN" (.int 18),
    .define "I2S_WS_PIN" (.int 13),
    .define "I2S_IN" (.int 17),
    .define "I2S_OUT" (.int 12),
    .define "MUTE" (.int 38),
    .define "SPEAKER_EN" (.int 21),
    .define "LED_PIN" (.int 11),
    .define "LED_COUNT" (.int 6),
    .define "T_L" (.touch 2),
    .define "T_C" (.touch 3),
    .define "T_R" (.touch 4),
    .define "USE_PSRAM" .empty ]

/-- The whole of `custom_boards.h`, lines 3 to 66. -/
def customBoards : Header :=
  { branches := [("BOARD_V1", groupV1), ("BOARD_V2", groupV2), ("BOARD_V3", groupV3)],
    elseGroup := [.error "No board defined!"] }

/-- The names tested by the guards of the chain, in file order. -/
def registeredSelectors : List String :=
  customBoards.branches.map Prod.fst

/-- The group a conditional chain keeps: that of the first guard whose name
is defined, the `#else` group when there is none. -/
def selectGroup (isDefined : String → Bool) : List (String × List Line) → List Line → List Line
  | [], elseGroup => elseGroup
  | (sym, group) :: rest, elseGroup =>
    if isDefined sym then group else selectGroup isDefined rest elseGroup

/-- Processing the kept group top to bottom: every `#define` adds a binding,
`#error` stops the translation with its message. -/
def evalGroup : List Line → Except String (List (String × Body))
  | [] => .ok []
  | .error msg :: _ => .error msg
  | .define name body :: rest =>
    match evalGroup rest with
    | .ok env => .ok ((name, body) :: env)
    | .error msg => .error msg

/-- Preprocessing a header when the names in `defs` are defined on entry:
the bindings the header adds, or the message of the `#error` it reaches. -/
def preprocessHeader (h : Header) (defs : List String) : Except String (List (String × Body)) :=
  evalGroup (selectGroup (fun sym => defs.contains sym) h.branches h.elseGroup)

/-- Preprocessing `custom_boards.h`. -/
def preprocess (defs : List String) : Except String (List (String × Body)) :=
  preprocessHeader customBoards defs

/-- An I2S peripheral instance, named `I2S_NUM_<n>` by the driver. -/
inductive I2SPort where
  | I2S_NUM (n : Nat)
  deriving DecidableEq, Repr

/-- A touch channel, named `T<n>` by the platform. -/
inductive TouchChannel where
  | T (n : Nat)
  deriving DecidableEq, Repr

/-- The audio bus bindings: `I2S_NUM`, `I2S_BCK_PIN`, `I2S_WS_PIN`, `I2S_IN`, `I2S_OUT`. -/
structure AudioBus where
  id : I2SPort
  clockPin : Nat
  wordSelectPin : Nat
  dataInPin : Nat
  dataOutPin : Nat
  deriving DecidableEq, Repr

/-- The bindings of one build under their logical names. `speakerEnablePin`
is the integer `SPEAKER_EN` is defined as, `none` when `SPEAKER_EN` is not
defined (or is defined as something that is no pin number);
`usesExternalMemory` tells whether `USE_PSRAM` is defined. -/
structure BoardProfile where
  name : String
  audioBus : AudioBus
  mutePin : Nat
  speakerEnablePin : Option Nat
  ledPin : Nat
  ledCount : Nat
  touchLeft : TouchChannel
  touchCenter : TouchChannel
  touchRight : TouchChannel
  usesExternalMemory : Bool
  deriving DecidableEq, Repr

/-- Why a build yields no profile. -/
inductive BuildError where
  /-- The preprocessor reached `#error` with this message. -/
  | directive (msg : String)
  /-- A name the firmware needs has no usable binding. -/
  | unbound (name : String)
  deriving DecidableEq, Repr

/-- The binding of a name, the first one in the list. -/
def lookup (env : List (String × Body)) (name : String) : Option Body :=
  (env.find? (fun d => d.1 == name)).map Prod.snd

/-- A name bound to a string literal. -/
def getStr (env : List (String × Body)) (name : String) : Except BuildError String :=
  match lookup env name with
  | some (.str s) => .ok s
  | _ => .error (.unbound name)

/-- A name bound to an integer. -/
def getInt (env : List (String × Body)) (name : String) : Except BuildError Nat :=
  match lookup env name with
  | some (.int n) => .ok n
  | _ => .error (.unbound name)

/-- A name bound to an I2S port identifier. -/
def getPort (env : List (String × Body)) (name : String) : Except BuildError I2SPort :=
  match lookup env name with
  | some (.i2sNum n) => .ok (.I2S_NUM n)
  | _ => .error (.unbound name)

/-- A name bound to a touch channel identifier. -/
def getTouch (env : List (String × Body)) (name : String) : Except BuildError TouchChannel :=
  match lookup env name with
  | some (.touch n) => .ok (.T n)
  | _ => .error (.unbound name)

/-- The names every group has to bind for the firmware to build. -/
def mandatoryNames : List String :=
  ["BOARD_NAME", "I2S_NUM", "I2S_BCK_PIN", "I2S_WS_PIN", "I2S_IN", "I2S_OUT",
   "MUTE", "LED_PIN", "LED_COUNT", "T_L", "T_C", "T_R"]

/-- Reading a set of bindings as a profile. -/
def profileOf (env : List (String × Body)) : Except BuildError BoardProfile := do
  let name ← getStr env "BOARD_NAME"
  let port ← getPort env "I2S_NUM"
  let bck ← getInt env "I2S_BCK_PIN"
  let ws ← getInt env "I2S_WS_PIN"
  let din ← getInt env "I2S_IN"
  let dout ← getInt env "I2S_OUT"
  let mute ← getInt env "MUTE"
  let led ← getInt env "LED_PIN"
  let count ← getInt env "LED_COUNT"
  let tl ← getTouch env "T_L"
  let tc ← getTouch env "T_C"
  let tr ← getTouch env "T_R"
  let speaker : Option Nat :=
    match lookup env "SPEAKER_EN" with
    | some (.int n) => some n
    | _ => none
  pure
    { name := name,
      audioBus :=
        { id := port, clockPin := bck, wordSelectPin := ws, dataInPin := din, dataOutPin := dout },
      mutePin := mute,
      speakerEnablePin := speaker,
      ledPin := led,
      ledCount := count,
      touchLeft := tl,
      touchCenter := tc,
      touchRight := tr,
      usesExternalMemory := (lookup env "USE_PSRAM").isSome }

/-- The names defined on entry, `entry` giving each with its replacement text.
A name listed twice has the replacement text listed first. -/
def definedNames (entry : List (String × Body)) : List String :=
  entry.map Prod.fst

/-- The definitions in force after `custom_boards.h`, or the message of the
`#error` it reaches: the bindings the header adds come before those of
`entry`, so that a name defined on entry and again by the kept group has
the replacement text of the header, and a name the kept group does not
mention keeps that of `entry`. -/
def definitionsAfter (entry : List (String × Body)) : Except String (List (String × Body)) :=
  match preprocess (definedNames entry) with
  | .error msg => .error msg
  | .ok added => .ok (added ++ entry)

/-- The profile of a build in which the definitions of `entry` are in force
when `custom_boards.h` is included. -/
def resolve (entry : List (String × Body)) : Except BuildError BoardProfile :=
  match definitionsAfter entry with
  | .error msg => .error (.directive msg)
  | .ok env => profileOf env

/-- The logical names: those every group binds, and the two only some groups
bind. -/
def logicalNames : List String :=
  mandatoryNames ++ ["SPEAKER_EN", "USE_PSRAM"]

/-- The `#define` lines of a group, as bindings. -/
def definesOf : List Line → List (String × Body)
  | [] => []
  | .define name body :: rest => (name, body) :: definesOf rest
  | .error _ :: rest => definesOf rest

/-- The six pin numbers every profile binds: bit clock, word select, data in,
data out, mute, LED data. -/
def mandatoryPins (p : BoardProfile) : List Nat :=
  [p.audioBus.clockPin, p.audioBus.wordSelectPin, p.audioBus.dataInPin,
   p.audioBus.dataOutPin, p.mutePin, p.ledPin]

/-- Lines 5 to 21 read as a profile. -/
def profileV1 : BoardProfile :=
  { name := "V1",
    audioBus := { id := .I2S_NUM 0, clockPin := 40, wordSelectPin := 42, dataInPin := 41,
                  dataOutPin := 17 },
    mutePin := 33, speakerEnablePin := some 47, ledPin := 48, ledCount := 6,
    touchLeft := .T 1, touchCenter := .T 2, touchRight := .T 3,
    usesExternalMemory := false }

/-- Lines 25 to 41 read as a profile. -/
def profileV2 : BoardProfile :=
  { name := "V2",
    audioBus := { id := .I2S_NUM 0, clockPin := 18, wordSelectPin := 13, dataInPin := 17,
                  dataOutPin := 12 },
    mutePin := 38, speakerEnablePin := none, ledPin := 11, ledCount := 6,
    touchLeft := .T 2, touchCenter := .T 3, touchRight := .T 4,
    usesExternalMemory := true }

/-- Lines 45 to 62 read as a profile. -/
def profileV3 : BoardProfile :=
  { name := "V3",
    audioBus := { id := .I2S_NUM 0, clockPin := 18, wordSelectPin := 13, dataInPin := 17,
                  dataOutPin := 12 },
    mutePin := 38, speakerEnablePin := some 21, ledPin := 11, ledCount := 6,
    touchLeft := .T 2, touchCenter := .T 3, touchRight := .T 4,
    usesExternalMemory := true }

/-- How many of the guarded names are defined. -/
def definedSelectorCount (defs : List String) : Nat :=
  (registeredSelectors.filter (fun sym => defs.contains sym)).length

/-! ## Shared lemmas -/

/-- The chain of `custom_boards.h` unfolded against the defined names. -/
theorem preprocess_chain (defs : List String) :
    preprocess defs =
      if "BOARD_V1" ∈ defs then evalGroup groupV1
      else if "BOARD_V2" ∈ defs then evalGroup groupV2
      else if "BOARD_V3" ∈ defs then evalGroup groupV3
      else .error "No board defined!" := by
  simp only [preprocess, preprocessHeader, customBoards, selectGroup, List.contains,
    List.elem_eq_mem, decide_eq_true_eq]
  split_ifs <;> rfl

/-- The first guard holds: the header adds the bindings of lines 5 to 21. -/
theorem preprocess_first (defs : List String) (h1 : "BOARD_V1" ∈ defs) :
    preprocess defs = .ok (definesOf groupV1) := by
  rw [preprocess_chain, if_pos h1]
  rfl

/-- The second guard is the first to hold: the header adds the bindings of lines 25 to 41. -/
theorem preprocess_second (defs : List String) (h1 : "BOARD_V1" ∉ defs)
    (h2 : "BOARD_V2" ∈ defs) : preprocess defs = .ok (definesOf groupV2) := by
  rw [preprocess_chain, if_neg h1, if_pos h2]
  rfl

/-- The third guard is the first to hold: the header adds the bindings of lines 45 to 62. -/
theorem preprocess_third (defs : List String) (h1 : "BOARD_V1" ∉ defs) (h2 : "BOARD_V2" ∉ defs)
    (h3 : "BOARD_V3" ∈ defs) : preprocess defs = .ok (definesOf groupV3) := by
  rw [preprocess_chain, if_neg h1, if_neg h2, if_pos h3]
  rfl

/-- No guard holds: the `#error` of line 65 is reached. -/
theorem preprocess_none (defs : List String) (h1 : "BOARD_V1" ∉ defs) (h2 : "BOARD_V2" ∉ defs)
    (h3 : "BOARD_V3" ∉ defs) : preprocess defs = .error "No board defined!" := by
  rw [preprocess_chain, if_neg h1, if_neg h2, if_neg h3]

/-- A name that is not defined has no binding. -/
theorem lookup_eq_none (entry : List (String × Body)) (name : String)
    (h : name ∉ definedNames entry) : lookup entry name = none := by
  induction entry with
  | nil => rfl
  | cons d rest ih =>
    simp only [definedNames, List.map_cons, List.mem_cons, not_or] at h
    have hne : (d.1 == name) = false := by
      simpa using fun heq => h.1 heq.symm
    have ih2 := ih (by simpa [definedNames] using h.2)
    simp only [lookup, List.find?_cons, hne] at ih2 ⊢
    exact ih2

/-- The first guard holds: the environment after the header. -/
theorem definitionsAfter_first (entry : List (String × Body))
    (h1 : "BOARD_V1" ∈ definedNames entry) :
    definitionsAfter entry = .ok (definesOf groupV1 ++ entry) := by
  unfold definitionsAfter
  rw [preprocess_first _ h1]

/-- The second guard is the first to hold: the environment after the header. -/
theorem definitionsAfter_second (entry : List (String × Body))
    (h1 : "BOARD_V1" ∉ definedNames entry) (h2 : "BOARD_V2" ∈ definedNames entry) :
    definitionsAfter entry = .ok (definesOf groupV2 ++ entry) := by
  unfold definitionsAfter
  rw [preprocess_second _ h1 h2]

/-- The third guard is the first to hold: the environment after the header. -/
theorem definitionsAfter_third (entry : List (String × Body))
    (h1 : "BOARD_V1" ∉ definedNames entry) (h2 : "BOARD_V2" ∉ definedNames entry)
    (h3 : "BOARD_V3" ∈ definedNames entry) :
    definitionsAfter entry = .ok (definesOf groupV3 ++ entry) := by
  unfold definitionsAfter
  rw [preprocess_third _ h1 h2 h3]

/-- No guard holds: there is no environment after the header. -/
theorem definitionsAfter_none (entry : List (String × Body))
    (h1 : "BOARD_V1" ∉ definedNames entry) (h2 : "BOARD_V2" ∉ definedNames entry)
    (h3 : "BOARD_V3" ∉ definedNames entry) :
    definitionsAfter entry = .error "No board defined!" := by
  unfold definitionsAfter
  rw [preprocess_none _ h1 h2 h3]

/-- The first guard holds: every field is that of lines 5 to 21, except that
the external memory flag tells whether `USE_PSRAM` was defined on entry. -/
theorem resolve_first_any (entry : List (String × Body))
    (h1 : "BOARD_V1" ∈ definedNames entry) :
    resolve entry =
      .ok { profileV1 with usesExternalMemory := (lookup entry "USE_PSRAM").isSome } := by
  unfold resolve
  rw [definitionsAfter_first entry h1]
  rfl

/-- The third guard is the first to hold: every field is that of lines 45 to 62. -/
theorem resolve_third (entry : List (String × Body))
    (h1 : "BOARD_V1" ∉ definedNames entry) (h2 : "BOARD_V2" ∉ definedNames entry)
    (h3 : "BOARD_V3" ∈ definedNames entry) : resolve entry = .ok profileV3 := by
  unfold resolve
  rw [definitionsAfter_third entry h1 h2 h3]
  rfl

/-- The second guard is the first to hold: every field is that of lines 25
to 41, except that the speaker enable pin is the integer `SPEAKER_EN` was
defined as on entry, if any. -/
theorem resolve_second_any (entry : List (String × Body))
    (h1 : "BOARD_V1" ∉ definedNames entry) (h2 : "BOARD_V2" ∈ definedNames entry) :
    resolve entry =
      .ok { profileV2 with
            speakerEnablePin :=
              match lookup entry "SPEAKER_EN" with
              | some (.int n) => some n
              | _ => none } := by
  unfold resolve
  rw [definitionsAfter_second entry h1 h2]
  rfl

/-- The first guard holds and `USE_PSRAM` is not defined on entry: the
profile is that of lines 5 to 21. -/
theorem resolve_first (entry : List (String × Body)) (h1 : "BOARD_V1" ∈ definedNames entry)
    (hp : "USE_PSRAM" ∉ definedNames entry) : resolve entry = .ok profileV1 := by
  rw [resolve_first_any entry h1, lookup_eq_none entry "USE_PSRAM" hp]
  rfl

/-- The second guard is the first to hold and `SPEAKER_EN` is not defined on
entry: the profile is that of lines 25 to 41. -/
theorem resolve_second (entry : List (String × Body)) (h1 : "BOARD_V1" ∉ definedNames entry)
    (h2 : "BOARD_V2" ∈ definedNames entry) (hs : "SPEAKER_EN" ∉ definedNames entry) :
    resolve entry = .ok profileV2 := by
  rw [resolve_second_any entry h1 h2, lookup_eq_none entry "SPEAKER_EN" hs]
  rfl

/-- No guard holds: the build stops on the `#error` of line 65. -/
theorem resolve_none (entry : List (String × Body)) (h1 : "BOARD_V1" ∉ definedNames entry)
    (h2 : "BOARD_V2" ∉ definedNames entry) (h3 : "BOARD_V3" ∉ definedNames entry) :
    resolve entry = .error (.directive "No board defined!") := by
  unfold resolve
  rw [definitionsAfter_none entry h1 h2 h3]

/-- A guard holds: some profile results, whatever else is defined on entry. -/
theorem resolve_ok_of_selector (entry : List (String × Body))
    (h : "BOARD_V1" ∈ definedNames entry ∨ "BOARD_V2" ∈ definedNames entry ∨
      "BOARD_V3" ∈ definedNames entry) : ∃ p, resolve entry = .ok p := by
  by_cases h1 : "BOARD_V1" ∈ definedNames entry
  · exact ⟨_, resolve_first_any entry h1⟩
  · by_cases h2 : "BOARD_V2" ∈ definedNames entry
    · exact ⟨_, resolve_second_any entry h1 h2⟩
    · rcases h with h | h | h
      · exact absurd h h1
      · exact absurd h h2
      · exact ⟨_, resolve_third entry h1 h2 h⟩

/-! ## Names defined outside the header

`USE_PSRAM` on a V1 build and `SPEAKER_EN` on a V2 build are not mentioned
by the kept group, so a definition made on entry stays in force. -/

/-- With `-DBOARD_V1 -DUSE_PSRAM`, the V1 bindings and external memory in use. -/
theorem entry_USE_PSRAM_kept :
    resolve [("BOARD_V1", .int 1), ("USE_PSRAM", .int 1)] =
      .ok { profileV1 with usesExternalMemory := true } := by
  rfl

/-- With `-DBOARD_V2 -DSPEAKER_EN=5`, the V2 bindings and speaker enable pin 5. -/
theorem entry_SPEAKER_EN_kept :
    resolve [("BOARD_V2", .int 1), ("SPEAKER_EN", .int 5)] =
      .ok { profileV2 with speakerEnablePin := some 5 } := by
  rfl

/-- With `-DBOARD_V2 -DSPEAKER_EN=5`, the profile is none of the three of the header. -/
theorem entry_SPEAKER_EN_mixture :
    resolve [("BOARD_V2", .int 1), ("SPEAKER_EN", .int 5)] ≠ .ok profileV1 ∧
    resolve [("BOARD_V2", .int 1), ("SPEAKER_EN", .int 5)] ≠ .ok profileV2 ∧
    resolve [("BOARD_V2", .int 1), ("SPEAKER_EN", .int 5)] ≠ .ok profileV3 := by
  rw [entry_SPEAKER_EN_kept]
  refine ⟨?_, ?_, ?_⟩ <;> intro h <;> injection h with h <;> exact absurd h (by decide)

/-- With `-DBOARD_V1 -DMUTE=5`, line 12 defines `MUTE` again and the mute pin is 33. -/
theorem entry_MUTE_redefined :
    resolve [("BOARD_V1", .int 1), ("MUTE", .int 5)] = .ok profileV1 := by
  rfl

/-- With `-DBOARD_V1 -DMUTE=5`, `MUTE` is defined twice: on entry and by line 12. -/
theorem entry_MUTE_defined_twice :
    ∃ env, definitionsAfter [("BOARD_V1", .int 1), ("MUTE", .int 5)] = .ok env ∧
      (env.map Prod.fst).count "MUTE" = 2 ∧ lookup env "MUTE" = some (.int 33) :=
  ⟨_, rfl, by decide, rfl⟩

/-! ## The three revisions -/

/-- C1: when `BOARD_V1` is defined, neither `BOARD_V2` nor `BOARD_V3` is, and
`USE_PSRAM` is not defined on entry, resolution succeeds with the profile
named "V1": clock 40, word select 42, data in 41, data out 17, mute 33,
speaker enable present and 47, LED pin 48, 6 LEDs, touch channels 1, 2, 3,
no external memory. After the header `SPEAKER_EN` is 47 and `USE_PSRAM` is
not defined. -/
theorem resolve_only_V1 (entry : List (String × Body))
    (h1 : "BOARD_V1" ∈ definedNames entry) (h2 : "BOARD_V2" ∉ definedNames entry)
    (h3 : "BOARD_V3" ∉ definedNames entry) (hp : "USE_PSRAM" ∉ definedNames entry) :
    resolve entry = .ok
      { name := "V1",
        audioBus := { id := .I2S_NUM 0, clockPin := 40, wordSelectPin := 42, dataInPin := 41,
                      dataOutPin := 17 },
        mutePin := 33, speakerEnablePin := some 47, ledPin := 48, ledCount := 6,
        touchLeft := .T 1, touchCenter := .T 2, touchRight := .T 3,
        usesExternalMemory := false } ∧
    ∃ env, definitionsAfter entry = .ok env ∧ lookup env "SPEAKER_EN" = some (.int 47) ∧
      lookup env "USE_PSRAM" = none := by
  have _ := h2
  have _ := h3
  refine ⟨resolve_first entry h1 hp, _, definitionsAfter_first entry h1, rfl, ?_⟩
  exact (rfl : lookup (definesOf groupV1 ++ entry) "USE_PSRAM" = lookup entry "USE_PSRAM").trans
    (lookup_eq_none entry "USE_PSRAM" hp)

/-- The build with `-DBOARD_V1` alone. -/
theorem resolve_only_V1_witness :
    "BOARD_V1" ∈ definedNames [("BOARD_V1", .int 1)] ∧
    "BOARD_V2" ∉ definedNames [("BOARD_V1", .int 1)] ∧
    "BOARD_V3" ∉ definedNames [("BOARD_V1", .int 1)] ∧
    "USE_PSRAM" ∉ definedNames [("BOARD_V1", .int 1)] ∧
    resolve [("BOARD_V1", .int 1)] = .ok
      { name := "V1",
        audioBus := { id := .I2S_NUM 0, clockPin := 40, wordSelectPin := 42, dataInPin := 41,
                      dataOutPin := 17 },
        mutePin := 33, speakerEnablePin := some 47, ledPin := 48, ledCount := 6,
        touchLeft := .T 1, touchCenter := .T 2, touchRight := .T 3,
        usesExternalMemory := false } :=
  ⟨by decide, by decide, by decide, by decide,
    (resolve_only_V1 [("BOARD_V1", .int 1)] (by decide) (by decide) (by decide)
      (by decide)).1⟩

/-- C2: when `BOARD_V2` is defined, neither `BOARD_V1` nor `BOARD_V3` is, and
`SPEAKER_EN` is not defined on entry, resolution succeeds with the profile
named "V2": clock 18, word select 13, data in 17, data out 12, mute 38, no
speaker enable pin, LED pin 11, 6 LEDs, touch channels 2, 3, 4, external
memory in use. After the header `SPEAKER_EN` is not defined and `USE_PSRAM`
is. -/
theorem resolve_only_V2 (entry : List (String × Body))
    (h1 : "BOARD_V1" ∉ definedNames entry) (h2 : "BOARD_V2" ∈ definedNames entry)
    (h3 : "BOARD_V3" ∉ definedNames entry) (hs : "SPEAKER_EN" ∉ definedNames entry) :
    resolve entry = .ok
      { name := "V2",
        audioBus := { id := .I2S_NUM 0, clockPin := 18, wordSelectPin := 13, dataInPin := 17,
                      dataOutPin := 12 },
        mutePin := 38, speakerEnablePin := none, ledPin := 11, ledCount := 6,
        touchLeft := .T 2, touchCenter := .T 3, touchRight := .T 4,
        usesExternalMemory := true } ∧
    ∃ env, definitionsAfter entry = .ok env ∧ lookup env "SPEAKER_EN" = none ∧
      lookup env "USE_PSRAM" = some .empty := by
  have _ := h3
  refine ⟨resolve_second entry h1 h2 hs, _, definitionsAfter_second entry h1 h2, ?_, rfl⟩
  exact (rfl : lookup (definesOf groupV2 ++ entry) "SPEAKER_EN" = lookup entry "SPEAKER_EN").trans
    (lookup_eq_none entry "SPEAKER_EN" hs)

/-- The build with `-DBOARD_V2` alone. -/
theorem resolve_only_V2_witness :
    "BOARD_V1" ∉ definedNames [("BOARD_V2", .int 1)] ∧
    "BOARD_V2" ∈ definedNames [("BOARD_V2", .int 1)] ∧
    "BOARD_V3" ∉ definedNames [("BOARD_V2", .int 1)] ∧
    "SPEAKER_EN" ∉ definedNames [("BOARD_V2", .int 1)] ∧
    resolve [("BOARD_V2", .int 1)] = .ok
      { name := "V2",
        audioBus := { id := .I2S_NUM 0, clockPin := 18, wordSelectPin := 13, dataInPin := 17,
                      dataOutPin := 12 },
        mutePin := 38, speakerEnablePin := none, ledPin := 11, ledCount := 6,
        touchLeft := .T 2, touchCenter := .T 3, touchRight := .T 4,
        usesExternalMemory := true } :=
  ⟨by decide, by decide, by decide, by decide,
    (resolve_only_V2 [("BOARD_V2", .int 1)] (by decide) (by decide) (by decide)
      (by decide)).1⟩

/-- C3: when `BOARD_V3` is defined and neither `BOARD_V1` nor `BOARD_V2` is,
resolution succeeds with the profile named "V3": clock 18, word select 13,
data in 17, data out 12, mute 38, speaker enable present and 21, LED pin 11,
6 LEDs, touch channels 2, 3, 4, external memory in use, whatever else is
defined on entry. After the header `SPEAKER_EN` is 21 and `USE_PSRAM` is
defined. -/
theorem resolve_only_V3 (entry : List (String × Body))
    (h1 : "BOARD_V1" ∉ definedNames entry) (h2 : "BOARD_V2" ∉ definedNames entry)
    (h3 : "BOARD_V3" ∈ definedNames entry) :
    resolve entry = .ok
      { name := "V3",
        audioBus := { id := .I2S_NUM 0, clockPin := 18, wordSelectPin := 13, dataInPin := 17,
                      dataOutPin := 12 },
        mutePin := 38, speakerEnablePin := some 21, ledPin := 11, ledCount := 6,
        touchLeft := .T 2, touchCenter := .T 3, touchRight := .T 4,
        usesExternalMemory := true } ∧
    ∃ env, definitionsAfter entry = .ok env ∧ lookup env "SPEAKER_EN" = some (.int 21) ∧
      lookup env "USE_PSRAM" = some .empty :=
  ⟨resolve_third entry h1 h2 h3, _, definitionsAfter_third entry h1 h2 h3, rfl, rfl⟩

/-- The build with `-DBOARD_V3` alone. -/
theorem resolve_only_V3_witness :
    "BOARD_V1" ∉ definedNames [("BOARD_V3", .int 1)] ∧
    "BOARD_V2" ∉ definedNames [("BOARD_V3", .int 1)] ∧
    "BOARD_V3" ∈ definedNames [("BOARD_V3", .int 1)] ∧
    resolve [("BOARD_V3", .int 1)] = .ok
      { name := "V3",
        audioBus := { id := .I2S_NUM 0, clockPin := 18, wordSelectPin := 13, dataInPin := 17,
                      dataOutPin := 12 },
        mutePin := 38, speakerEnablePin := some 21, ledPin := 11, ledCount := 6,
        touchLeft := .T 2, touchCenter := .T 3, touchRight := .T 4,
        usesExternalMemory := true } :=
  ⟨by decide, by decide, by decide,
    (resolve_only_V3 [("BOARD_V3", .int 1)] (by decide) (by decide) (by decide)).1⟩

/-! ## Several, no or unknown selectors -/

/-- C4, as stated, fails: with `BOARD_V1` and `BOARD_V2` both defined the
build is not rejected, it yields the V1 profile. -/
theorem two_selectors_not_rejected :
    resolve [("BOARD_V1", .int 1), ("BOARD_V2", .int 1)] = .ok profileV1 ∧
    ¬ ∃ e, resolve [("BOARD_V1", .int 1), ("BOARD_V2", .int 1)] = .error e := by
  refine ⟨rfl, ?_⟩
  rintro ⟨e, he⟩
  have hok : resolve [("BOARD_V1", .int 1), ("BOARD_V2", .int 1)] = .ok profileV1 := rfl
  rw [hok] at he
  exact Except.noConfusion he

/-- C4, amended: when two or more of `BOARD_V1`, `BOARD_V2`, `BOARD_V3` are
defined, and neither `SPEAKER_EN` nor `USE_PSRAM` is defined on entry,
resolution succeeds with the profile of the first of them in file order,
which is V1 when `BOARD_V1` is among them and V2 otherwise. -/
theorem resolve_several_selectors (entry : List (String × Body))
    (h : 2 ≤ definedSelectorCount (definedNames entry))
    (hs : "SPEAKER_EN" ∉ definedNames entry) (hp : "USE_PSRAM" ∉ definedNames entry) :
    resolve entry = .ok (if "BOARD_V1" ∈ definedNames entry then profileV1 else profileV2) := by
  by_cases h1 : "BOARD_V1" ∈ definedNames entry
  · rw [if_pos h1]
    exact resolve_first entry h1 hp
  · rw [if_neg h1]
    by_cases h2 : "BOARD_V2" ∈ definedNames entry
    · exact resolve_second entry h1 h2 hs
    · exfalso
      have hc : definedSelectorCount (definedNames entry) ≤ 1 := by
        simp only [definedSelectorCount, registeredSelectors, customBoards, List.map,
          List.filter, List.contains, List.elem_eq_mem, h1, h2, decide_False]
        split <;> simp
      omega

/-- The build with `-DBOARD_V3 -DBOARD_V2`. -/
theorem resolve_several_selectors_witness :
    2 ≤ definedSelectorCount (definedNames [("BOARD_V3", .int 1), ("BOARD_V2", .int 1)]) ∧
    "SPEAKER_EN" ∉ definedNames [("BOARD_V3", .int 1), ("BOARD_V2", .int 1)] ∧
    "USE_PSRAM" ∉ definedNames [("BOARD_V3", .int 1), ("BOARD_V2", .int 1)] ∧
    resolve [("BOARD_V3", .int 1), ("BOARD_V2", .int 1)] = .ok profileV2 :=
  ⟨by decide, by decide, by decide,
    resolve_several_selectors [("BOARD_V3", .int 1), ("BOARD_V2", .int 1)] (by decide)
      (by decide) (by decide)⟩

/-- C5: when none of `BOARD_V1`, `BOARD_V2`, `BOARD_V3` is defined, whatever
else is, the header stops on `#error "No board defined!"`: no binding is
produced and resolution fails with that diagnostic. -/
theorem resolve_no_selector (entry : List (String × Body))
    (h1 : "BOARD_V1" ∉ definedNames entry) (h2 : "BOARD_V2" ∉ definedNames entry)
    (h3 : "BOARD_V3" ∉ definedNames entry) :
    preprocess (definedNames entry) = .error "No board defined!" ∧
    definitionsAfter entry = .error "No board defined!" ∧
    resolve entry = .error (.directive "No board defined!") ∧
    ¬ ∃ p, resolve entry = .ok p := by
  refine ⟨preprocess_none _ h1 h2 h3, definitionsAfter_none entry h1 h2 h3,
    resolve_none entry h1 h2 h3, ?_⟩
  rintro ⟨p, hp⟩
  rw [resolve_none entry h1 h2 h3] at hp
  exact Except.noConfusion hp

/-- The build in which nothing is defined. -/
theorem resolve_no_selector_witness :
    "BOARD_V1" ∉ definedNames [] ∧ "BOARD_V2" ∉ definedNames [] ∧
    "BOARD_V3" ∉ definedNames [] ∧
    resolve [] = .error (.directive "No board defined!") :=
  ⟨by decide, by decide, by decide,
    (resolve_no_selector [] (by decide) (by decide) (by decide)).2.2.1⟩

/-- C6, as stated, fails: with only `BOARD_V99` defined the build fails, but
with the very error of a build in which nothing is defined. -/
theorem unknown_selector_same_error :
    resolve [("BOARD_V99", .int 1)] = resolve [] ∧
    ¬ ∃ e1 e2, resolve [("BOARD_V99", .int 1)] = .error e1 ∧ resolve [] = .error e2 ∧
      e1 ≠ e2 := by
  refine ⟨rfl, ?_⟩
  rintro ⟨e1, e2, h1, h2, hne⟩
  have h : (Except.error e1 : Except BuildError BoardProfile) = .error e2 := by
    rw [← h1, ← h2]
    rfl
  exact hne (by injection h)

/-- C6, amended: when the only defined name is not one the chain tests,
whatever its replacement text, resolution fails with the diagnostic
"No board defined!", the same error as when nothing is defined. -/
theorem resolve_unknown_selector (sel : String) (h : sel ∉ registeredSelectors)
    (body : Body) :
    resolve [(sel, body)] = .error (.directive "No board defined!") ∧
    resolve [(sel, body)] = resolve [] := by
  simp only [registeredSelectors, customBoards, List.map, List.mem_cons, List.mem_singleton,
    List.not_mem_nil, or_false, not_or] at h
  obtain ⟨h1, h2, h3⟩ := h
  have hr : resolve [(sel, body)] = .error (.directive "No board defined!") :=
    resolve_none [(sel, body)] (by simpa [definedNames] using Ne.symm h1)
      (by simpa [definedNames] using Ne.symm h2) (by simpa [definedNames] using Ne.symm h3)
  exact ⟨hr, hr.trans rfl⟩

/-- The build with `-DBOARD_V99` alone. -/
theorem resolve_unknown_selector_witness :
    "BOARD_V99" ∉ registeredSelectors ∧
    resolve [("BOARD_V99", .int 1)] = .error (.directive "No board defined!") :=
  ⟨by decide, (resolve_unknown_selector "BOARD_V99" (by decide) (.int 1)).1⟩

/-! ## Properties of every revision -/

/-- The guarded names are exactly `BOARD_V1`, `BOARD_V2`, `BOARD_V3`. -/
theorem mem_registeredSelectors (R : String) (h : R ∈ registeredSelectors) :
    R = "BOARD_V1" ∨ R = "BOARD_V2" ∨ R = "BOARD_V3" := by
  simpa [registeredSelectors, customBoards] using h

/-- C7: for each of `BOARD_V1`, `BOARD_V2`, `BOARD_V3` defined alone,
whatever its replacement text, resolution succeeds and the six mandatory pin
numbers of the profile (bit clock, word select, data in, data out, mute,
LED data) are pairwise different. -/
theorem mandatory_pins_distinct (R : String) (h : R ∈ registeredSelectors) (body : Body) :
    ∃ p, resolve [(R, body)] = .ok p ∧ (mandatoryPins p).Pairwise (fun a b => a ≠ b) := by
  rcases mem_registeredSelectors R h with rfl | rfl | rfl
  · exact ⟨profileV1, rfl, by decide⟩
  · exact ⟨profileV2, rfl, by decide⟩
  · exact ⟨profileV3, rfl, by decide⟩

/-- The six pins of revision V1: 40, 42, 41, 17, 33, 48. -/
theorem mandatory_pins_distinct_witness :
    "BOARD_V1" ∈ registeredSelectors ∧
    ∃ p, resolve [("BOARD_V1", .int 1)] = .ok p ∧
      (mandatoryPins p).Pairwise (fun a b => a ≠ b) :=
  ⟨by decide, mandatory_pins_distinct "BOARD_V1" (by decide) (.int 1)⟩

/-- C8: for each of `BOARD_V1`, `BOARD_V2`, `BOARD_V3` defined alone,
whatever its replacement text, the header adds bindings in which every
mandatory name is defined (`BOARD_NAME`, `I2S_NUM`, the four I2S pins,
`MUTE`, `LED_PIN`, `LED_COUNT`, `T_L`, `T_C`, `T_R`), the definitions in
force after the header read as a profile, whose external memory flag is
whether `USE_PSRAM` is defined, and the LED count is positive. -/
theorem mandatory_fields_populated (R : String) (h : R ∈ registeredSelectors) (body : Body) :
    ∃ added env p, preprocess [R] = .ok added ∧
      (∀ n ∈ mandatoryNames, (lookup added n).isSome = true) ∧
      definitionsAfter [(R, body)] = .ok env ∧
      (∀ n ∈ mandatoryNames, lookup env n = lookup added n) ∧
      profileOf env = .ok p ∧ resolve [(R, body)] = .ok p ∧
      p.usesExternalMemory = (lookup env "USE_PSRAM").isSome ∧ 0 < p.ledCount := by
  have hcases : ∀ n ∈ mandatoryNames,
      n = "BOARD_NAME" ∨ n = "I2S_NUM" ∨ n = "I2S_BCK_PIN" ∨ n = "I2S_WS_PIN" ∨ n = "I2S_IN" ∨
      n = "I2S_OUT" ∨ n = "MUTE" ∨ n = "LED_PIN" ∨ n = "LED_COUNT" ∨ n = "T_L" ∨ n = "T_C" ∨
      n = "T_R" := by
    intro n hn
    simpa [mandatoryNames] using hn
  rcases mem_registeredSelectors R h with rfl | rfl | rfl
  · refine ⟨_, _, profileV1, rfl, by decide, rfl, ?_, rfl, rfl, rfl, by decide⟩
    intro n hn
    rcases hcases n hn with
      rfl | rfl | rfl | rfl | rfl | rfl | rfl | rfl | rfl | rfl | rfl | rfl <;> rfl
  · refine ⟨_, _, profileV2, rfl, by decide, rfl, ?_, rfl, rfl, rfl, by decide⟩
    intro n hn
    rcases hcases n hn with
      rfl | rfl | rfl | rfl | rfl | rfl | rfl | rfl | rfl | rfl | rfl | rfl <;> rfl
  · refine ⟨_, _, profileV3, rfl, by decide, rfl, ?_, rfl, rfl, rfl, by decide⟩
    intro n hn
    rcases hcases n hn with
      rfl | rfl | rfl | rfl | rfl | rfl | rfl | rfl | rfl | rfl | rfl | rfl <;> rfl

/-- Revision V3 has every mandatory name bound and 6 LEDs. -/
theorem mandatory_fields_populated_witness :
    "BOARD_V3" ∈ registeredSelectors ∧
    ∃ added env p, preprocess ["BOARD_V3"] = .ok added ∧
      (∀ n ∈ mandatoryNames, (lookup added n).isSome = true) ∧
      definitionsAfter [("BOARD_V3", .int 1)] = .ok env ∧
      (∀ n ∈ mandatoryNames, lookup env n = lookup added n) ∧
      profileOf env = .ok p ∧ resolve [("BOARD_V3", .int 1)] = .ok p ∧
      p.usesExternalMemory = (lookup env "USE_PSRAM").isSome ∧ 0 < p.ledCount :=
  ⟨by decide, mandatory_fields_populated "BOARD_V3" (by decide) (.int 1)⟩

/-- A logical name not defined on entry is defined as often after the header
as the kept group defines it. -/
theorem count_after (added entry : List (String × Body)) (n : String)
    (hn : n ∉ definedNames entry) :
    ((added ++ entry).map Prod.fst).count n = (added.map Prod.fst).count n := by
  have h0 : (entry.map Prod.fst).count n = 0 := List.count_eq_zero_of_not_mem hn
  rw [List.map_append, List.count_append, h0, Nat.add_zero]

/-- C9: whenever resolution succeeds in a build that defines none of the
logical names outside the header (so for every set of selector flags and
unrelated names), the profile is one of the three registered profiles as a
whole (V1, V2 or V3), it is the reading of the definitions in force after
the header, and none of the logical names is defined more than once. -/
theorem one_profile_active (entry : List (String × Body)) (p : BoardProfile)
    (hd : ∀ n ∈ logicalNames, n ∉ definedNames entry) (h : resolve entry = .ok p) :
    (p = profileV1 ∨ p = profileV2 ∨ p = profileV3) ∧
    ∃ env, definitionsAfter entry = .ok env ∧ profileOf env = .ok p ∧
      ∀ n ∈ logicalNames, (env.map Prod.fst).count n ≤ 1 := by
  have hs : "SPEAKER_EN" ∉ definedNames entry := hd _ (by decide)
  have hp : "USE_PSRAM" ∉ definedNames entry := hd _ (by decide)
  by_cases h1 : "BOARD_V1" ∈ definedNames entry
  · have hr := resolve_first entry h1 hp
    have he := definitionsAfter_first entry h1
    refine ⟨Or.inl ?_, _, he, ?_, ?_⟩
    · rw [hr] at h
      injection h with h
      exact h.symm
    · rw [← h]
      unfold resolve
      rw [he]
    · intro n hn
      rw [count_after _ entry n (hd n hn)]
      revert n
      decide
  · by_cases h2 : "BOARD_V2" ∈ definedNames entry
    · have hr := resolve_second entry h1 h2 hs
      have he := definitionsAfter_second entry h1 h2
      refine ⟨Or.inr (Or.inl ?_), _, he, ?_, ?_⟩
      · rw [hr] at h
        injection h with h
        exact h.symm
      · rw [← h]
        unfold resolve
        rw [he]
      · intro n hn
        rw [count_after _ entry n (hd n hn)]
        revert n
        decide
    · by_cases h3 : "BOARD_V3" ∈ definedNames entry
      · have hr := resolve_third entry h1 h2 h3
        have he := definitionsAfter_third entry h1 h2 h3
        refine ⟨Or.inr (Or.inr ?_), _, he, ?_, ?_⟩
        · rw [hr] at h
          injection h with h
          exact h.symm
        · rw [← h]
          unfold resolve
          rw [he]
        · intro n hn
          rw [count_after _ entry n (hd n hn)]
          revert n
          decide
      · rw [resolve_none entry h1 h2 h3] at h
        exact Except.noConfusion h

/-- A build with all three selectors and an unrelated name defined: the
active profile is V1 as a whole. -/
theorem one_profile_active_witness :
    (∀ n ∈ logicalNames, n ∉ definedNames
      [("BOARD_V3", .int 1), ("DEBUG", .empty), ("BOARD_V1", .int 1), ("BOARD_V2", .int 1)]) ∧
    resolve [("BOARD_V3", .int 1), ("DEBUG", .empty), ("BOARD_V1", .int 1),
      ("BOARD_V2", .int 1)] = .ok profileV1 ∧
    (profileV1 = profileV1 ∨ profileV1 = profileV2 ∨ profileV1 = profileV3) ∧
    ∃ env, definitionsAfter [("BOARD_V3", .int 1), ("DEBUG", .empty), ("BOARD_V1", .int 1),
        ("BOARD_V2", .int 1)] = .ok env ∧
      profileOf env = .ok profileV1 ∧ ∀ n ∈ logicalNames, (env.map Prod.fst).count n ≤ 1 :=
  ⟨by decide, rfl,
    one_profile_active
      [("BOARD_V3", .int 1), ("DEBUG", .empty), ("BOARD_V1", .int 1), ("BOARD_V2", .int 1)]
      profileV1 (by decide) rfl⟩

/-- C10: selection is first match in the order V1, V2, V3. Whatever names
are defined on entry, `SPEAKER_EN` and `USE_PSRAM` apart, the result is the
V1 profile if `BOARD_V1` is defined, otherwise the V2 profile if `BOARD_V2`
is defined, otherwise the V3 profile if `BOARD_V3` is defined; so it depends
neither on the guards after the first that holds nor on any other defined
name. -/
theorem resolve_first_match (entry : List (String × Body))
    (hs : "SPEAKER_EN" ∉ definedNames entry) (hp : "USE_PSRAM" ∉ definedNames entry) :
    resolve entry =
      if "BOARD_V1" ∈ definedNames entry then .ok profileV1
      else if "BOARD_V2" ∈ definedNames entry then .ok profileV2
      else if "BOARD_V3" ∈ definedNames entry then .ok profileV3
      else .error (.directive "No board defined!") := by
  by_cases h1 : "BOARD_V1" ∈ definedNames entry
  · rw [if_pos h1]
    exact resolve_first entry h1 hp
  · rw [if_neg h1]
    by_cases h2 : "BOARD_V2" ∈ definedNames entry
    · rw [if_pos h2]
      exact resolve_second entry h1 h2 hs
    · rw [if_neg h2]
      by_cases h3 : "BOARD_V3" ∈ definedNames entry
      · rw [if_pos h3]
        exact resolve_third entry h1 h2 h3
      · rw [if_neg h3]
        exact resolve_none entry h1 h2 h3

/-- A build with an unrelated name, `BOARD_V3` and `BOARD_V2` defined: the
V2 profile. -/
theorem resolve_first_match_witness :
    "SPEAKER_EN" ∉ definedNames
      [("DEBUG", .empty), ("BOARD_V3", .int 1), ("BOARD_V2", .int 1)] ∧
    "USE_PSRAM" ∉ definedNames
      [("DEBUG", .empty), ("BOARD_V3", .int 1), ("BOARD_V2", .int 1)] ∧
    resolve [("DEBUG", .empty), ("BOARD_V3", .int 1), ("BOARD_V2", .int 1)] = .ok profileV2 :=
  ⟨by decide, by decide,
    (resolve_first_match [("DEBUG", .empty), ("BOARD_V3", .int 1), ("BOARD_V2", .int 1)]
      (by decide) (by decide)).trans rfl⟩

/-! ## Failure, and relations between the profiles -/

/-- C11: resolution fails exactly when none of `BOARD_V1`, `BOARD_V2`,
`BOARD_V3` is defined. Whatever is defined on entry, an error is raised if
and only if none of the three is among the defined names, the error is then
the `#error` of the header, and a profile is produced if and only if at
least one of the three is among them. -/
theorem resolve_fails_iff_no_selector (entry : List (String × Body)) :
    ((∃ e, resolve entry = .error e) ↔
      ("BOARD_V1" ∉ definedNames entry ∧ "BOARD_V2" ∉ definedNames entry ∧
        "BOARD_V3" ∉ definedNames entry)) ∧
    ((∃ msg, preprocess (definedNames entry) = .error msg) ↔
      ("BOARD_V1" ∉ definedNames entry ∧ "BOARD_V2" ∉ definedNames entry ∧
        "BOARD_V3" ∉ definedNames entry)) ∧
    ((∃ p, resolve entry = .ok p) ↔
      ("BOARD_V1" ∈ definedNames entry ∨ "BOARD_V2" ∈ definedNames entry ∨
        "BOARD_V3" ∈ definedNames entry)) := by
  by_cases h1 : "BOARD_V1" ∈ definedNames entry
  · have hr := resolve_first_any entry h1
    have hp := preprocess_first _ h1
    simp [hr, hp, h1]
  · by_cases h2 : "BOARD_V2" ∈ definedNames entry
    · have hr := resolve_second_any entry h1 h2
      have hp := preprocess_second _ h1 h2
      simp [hr, hp, h2]
    · by_cases h3 : "BOARD_V3" ∈ definedNames entry
      · have hr := resolve_third entry h1 h2 h3
        have hp := preprocess_third _ h1 h2 h3
        simp [hr, hp, h3]
      · have hr := resolve_none entry h1 h2 h3
        have hp := preprocess_none _ h1 h2 h3
        simp [hr, hp, h1, h2, h3]

/-- C12: the profiles of `BOARD_V2` alone and of `BOARD_V3` alone, whatever
their replacement texts, agree on the audio bus (id, clock, word select,
data in, data out), the mute pin, the LED pin, the LED count, the three
touch channels and the external memory flag; they differ in the name, and
the speaker enable pin is absent in V2 and 21 in V3. -/
theorem V2_V3_agree_up_to_speaker (body2 body3 : Body) :
    ∃ p2 p3, resolve [("BOARD_V2", body2)] = .ok p2 ∧ resolve [("BOARD_V3", body3)] = .ok p3 ∧
      p2.audioBus.id = p3.audioBus.id ∧
      p2.audioBus.clockPin = p3.audioBus.clockPin ∧
      p2.audioBus.wordSelectPin = p3.audioBus.wordSelectPin ∧
      p2.audioBus.dataInPin = p3.audioBus.dataInPin ∧
      p2.audioBus.dataOutPin = p3.audioBus.dataOutPin ∧
      p2.mutePin = p3.mutePin ∧ p2.ledPin = p3.ledPin ∧ p2.ledCount = p3.ledCount ∧
      p2.touchLeft = p3.touchLeft ∧ p2.touchCenter = p3.touchCenter ∧
      p2.touchRight = p3.touchRight ∧
      p2.usesExternalMemory = p3.usesExternalMemory ∧
      p2.name ≠ p3.name ∧
      p2.speakerEnablePin = none ∧ p3.speakerEnablePin = some 21 :=
  ⟨profileV2, profileV3, rfl, rfl, rfl, rfl, rfl, rfl, rfl, rfl, rfl, rfl, rfl, rfl, rfl, rfl,
    by decide, rfl, rfl⟩

/-- C13: when one of `BOARD_V1`, `BOARD_V2`, `BOARD_V3` is defined alone,
whatever its replacement text, and the profile has a speaker enable pin,
the revision is V1 or V3 and that pin is none of the six mandatory pins of
the profile (bit clock, word select, data in, data out, mute, LED data). -/
theorem speaker_enable_not_aliased (R : String) (h : R ∈ registeredSelectors) (body : Body)
    (p : BoardProfile) (hp : resolve [(R, body)] = .ok p) (s : Nat)
    (hs : p.speakerEnablePin = some s) :
    (R = "BOARD_V1" ∨ R = "BOARD_V3") ∧ s ∉ mandatoryPins p := by
  rcases mem_registeredSelectors R h with rfl | rfl | rfl
  · have h1 : resolve [("BOARD_V1", body)] = .ok profileV1 := rfl
    rw [h1] at hp
    injection hp with hp
    subst hp
    injection hs with hs
    subst hs
    exact ⟨Or.inl rfl, by decide⟩
  · have h2 : resolve [("BOARD_V2", body)] = .ok profileV2 := rfl
    rw [h2] at hp
    injection hp with hp
    subst hp
    exact Option.noConfusion hs
  · have h3 : resolve [("BOARD_V3", body)] = .ok profileV3 := rfl
    rw [h3] at hp
    injection hp with hp
    subst hp
    injection hs with hs
    subst hs
    exact ⟨Or.inr rfl, by decide⟩

/-- Revision V1: speaker enable pin 47 against 40, 42, 41, 17, 33, 48. -/
theorem speaker_enable_not_aliased_witness :
    "BOARD_V1" ∈ registeredSelectors ∧ resolve [("BOARD_V1", .int 1)] = .ok profileV1 ∧
    profileV1.speakerEnablePin = some 47 ∧ 47 ∉ mandatoryPins profileV1 :=
  ⟨by decide, rfl, rfl,
    (speaker_enable_not_aliased "BOARD_V1" (by decide) (.int 1) profileV1 rfl 47 rfl).2⟩

/-- Revision V3: speaker enable pin 21 against 18, 13, 17, 12, 38, 11. -/
theorem speaker_enable_V3_example :
    resolve [("BOARD_V3", .int 1)] = .ok profileV3 ∧ profileV3.speakerEnablePin = some 21 ∧
    21 ∉ mandatoryPins profileV3 :=
  ⟨rfl, rfl, by decide⟩

/-- C14: for each of `BOARD_V1`, `BOARD_V2`, `BOARD_V3` defined alone,
whatever its replacement text, resolution succeeds and the left, center and
right touch channels of the profile are pairwise different. -/
theorem touch_channels_distinct (R : String) (h : R ∈ registeredSelectors) (body : Body) :
    ∃ p, resolve [(R, body)] = .ok p ∧ p.touchLeft ≠ p.touchCenter ∧
      p.touchLeft ≠ p.touchRight ∧ p.touchCenter ≠ p.touchRight := by
  rcases mem_registeredSelectors R h with rfl | rfl | rfl
  · exact ⟨profileV1, rfl, by decide, by decide, by decide⟩
  · exact ⟨profileV2, rfl, by decide, by decide, by decide⟩
  · exact ⟨profileV3, rfl, by decide, by decide, by decide⟩

/-- Revision V2: touch channels T2, T3, T4. -/
theorem touch_channels_distinct_witness :
    "BOARD_V2" ∈ registeredSelectors ∧
    ∃ p, resolve [("BOARD_V2", .int 1)] = .ok p ∧ p.touchLeft ≠ p.touchCenter ∧
      p.touchLeft ≠ p.touchRight ∧ p.touchCenter ≠ p.touchRight :=
  ⟨by decide, touch_channels_distinct "BOARD_V2" (by decide) (.int 1)⟩

end Onjuino
